import Mathlib

/-!
Verification of the power_max_tracker component
(`custom_components/power_max_tracker/coordinator.py` and `sensor.py`).

Numbers are modelled as rationals (`ℚ`), timestamps as rational seconds.
Python's `round(x, n)` is modelled as round-half-to-even at `n` decimal
digits (`pyRound`).  Python's `sorted(l, reverse=True)` is modelled as a
stable descending sort (`List.insertionSort (· ≥ ·)`).  Sensor states read
from Home Assistant are modelled as `Option String` (`none` = entity
missing).  Values a sensor reports to Home Assistant are modelled as
`Option ℚ`, where `none` stands for an unknown / "no data" state.
-/

namespace PowerMaxTracker

/-- Round-half-to-even of a rational to the nearest integer, modelling
Python's built-in `round` on exact values. -/
def roundHalfEven (q : ℚ) : ℤ :=
  if q - ⌊q⌋ < 1/2 then ⌊q⌋
  else if 1/2 < q - ⌊q⌋ then ⌊q⌋ + 1
  else if ⌊q⌋ % 2 = 0 then ⌊q⌋ else ⌊q⌋ + 1

/-- Python's `round(q, ndigits)`. -/
def pyRound (q : ℚ) (ndigits : ℕ) : ℚ :=
  (roundHalfEven (q * 10 ^ ndigits) : ℚ) / 10 ^ ndigits

/-- Negative-power clamp `if current_power < 0: current_power = 0.0`
(sensor.py line 286-287). -/
def clampNegative (p : ℚ) : ℚ :=
  if p < 0 then 0 else p

/-- Stable descending sort, modelling Python's `sorted(l, reverse=True)`. -/
def sortedDescending (l : List ℚ) : List ℚ :=
  l.insertionSort (· ≥ ·)

/-- Initialization of `PowerMaxCoordinator.max_values` (coordinator.py
lines 23-25): take the persisted list if present, else `[0.0] * N`; if the
length does not match `num_max_values`, fall back to `[0.0] * N`. -/
def initMaxValues (storedMaxValues : Option (List ℚ)) (numMaxValues : ℕ) : List ℚ :=
  let maxValues := storedMaxValues.getD (List.replicate numMaxValues 0)
  if maxValues.length ≠ numMaxValues then List.replicate numMaxValues 0 else maxValues

/-- `PowerMaxCoordinator._can_update_max_values` (coordinator.py lines
290-298): `binarySensor` is the configured gating entity id (`none` when
not configured), `binaryState` the current state of that entity (`none`
when `hass.states.get` returns `None`). -/
def canUpdateMaxValues (binarySensor : Option String) (binaryState : Option String) : Bool :=
  match binarySensor with
  | none => true
  | some _ =>
    match binaryState with
    | none => false
    | some st => if st == "unavailable" then false else st == "on"

/-- `GatedSensorEntity._can_update` (sensor.py lines 24-29):
`state is not None and state.state == "on"`. -/
def canUpdateGated (binarySensor : Option String) (binaryState : Option String) : Bool :=
  match binarySensor with
  | none => true
  | some _ =>
    match binaryState with
    | none => false
    | some st => st == "on"

/-- The insertion step of `_async_update_hourly` (coordinator.py line 120):
`sorted(self.max_values + [hourly_avg_kw], reverse=True)[:self.num_max_values]`. -/
def insertMaxValue (numMaxValues : ℕ) (maxValues : List ℚ) (v : ℚ) : List ℚ :=
  (sortedDescending (maxValues ++ [v])).take numMaxValues

/-- The state transition of `PowerMaxCoordinator._async_update_hourly`
(coordinator.py lines 90-134) on `max_values`.  `meanWatts` is the "mean"
statistic returned by the recorder for the closed hour (`none` when no
statistics row exists).  A negative mean is skipped ("Skipping negative
hourly average power"), otherwise the value is converted to kW and, when
the gate allows, inserted into the sorted, truncated list. -/
def updateHourlyMax (canUpdate : Bool) (numMaxValues : ℕ) (maxValues : List ℚ)
    (meanWatts : Option ℚ) : List ℚ :=
  match meanWatts with
  | none => maxValues
  | some hourlyAvgWatts =>
    if hourlyAvgWatts ≥ 0 then
      if canUpdate then
        insertMaxValue numMaxValues maxValues (hourlyAvgWatts / 1000)
      else maxValues
    else maxValues

/-- The effect of `PowerMaxCoordinator._async_reset_monthly` (coordinator.py
lines 300-312) on `max_values`: on the 1st of the month (with monthly reset
enabled) the list is overwritten with `[0.0] * num_max_values`. -/
def resetMonthlyMaxValues (monthlyReset : Bool) (nowDay : ℕ) (numMaxValues : ℕ)
    (maxValues : List ℚ) : List ℚ :=
  if monthlyReset ∧ nowDay = 1 then List.replicate numMaxValues 0 else maxValues

/-- The mutable attributes of `PowerMaxCoordinator` set in `__init__`
(coordinator.py lines 15-27), omitting the runtime handles (`hass`,
`entry`, `entities`, `_listeners`, `source_sensor_entity_id`).  Note that
`__init__` defines no `previous_month_max_values` attribute, although
`AverageMaxPowerSensor.extra_state_attributes` (sensor.py line 123) reads
one. -/
structure CoordinatorState where
  source_sensor : String
  monthly_reset : Bool
  num_max_values : ℕ
  binary_sensor : Option String
  max_values : List ℚ

/-- `PowerMaxCoordinator._async_reset_monthly` (coordinator.py lines
300-312) as a transition on the whole coordinator state: no field other
than `max_values` is written, and the old `max_values` is not copied
anywhere before being overwritten. -/
def resetMonthly (s : CoordinatorState) (nowDay : ℕ) : CoordinatorState :=
  if s.monthly_reset ∧ nowDay = 1 then
    { s with max_values := List.replicate s.num_max_values 0 }
  else s

/-- `MaxPowerSensor.native_value` (sensor.py lines 76-86):
`round(max_values[index], 2) if len(max_values) > index else 0.0`. -/
def maxPowerNativeValue (maxValues : List ℚ) (index : ℕ) : ℚ :=
  if index < maxValues.length then pyRound (maxValues.getD index 0) 2 else 0

/-- `AverageMaxPowerSensor.native_value` (sensor.py lines 112-118):
`round(sum(max_values) / len(max_values), 2)` when the list is non-empty,
`0.0` otherwise.  The result type is `Option ℚ` because a Home Assistant
`native_value` may in general be `None` ("no data"); this implementation
returns a number (`some _`) in both branches. -/
def averageMaxNativeValue (maxValues : List ℚ) : Option ℚ :=
  if maxValues ≠ [] then some (pyRound (maxValues.sum / maxValues.length) 2) else some 0

/-- The mutable state of `HourlyAveragePowerSensor` (sensor.py lines
199-204): accumulated energy in kWh, last seen power in W, timestamp of the
last processed event and start of the open hour window (both in seconds;
`none` models Python `None`). -/
structure IntegratorState where
  accumulated_energy : ℚ
  last_power : ℚ
  last_time : Option ℚ
  hour_start : Option ℚ

/-- The state of the source sensor as seen by the event handler:
`missing` models `None`/"unavailable"/"unknown" states, `invalid` an
unparseable state string, `value p` a parsed float reading in watts. -/
inductive SourceReading where
  | missing
  | invalid
  | value (powerWatts : ℚ)

/-- `_async_hour_start` (sensor.py lines 255-262): at the start of each
hour all integrator fields are reset and the window opens at `now`. -/
def hourStartReset (now : ℚ) : IntegratorState :=
  { accumulated_energy := 0, last_power := 0, last_time := some now, hour_start := some now }

/-- `_async_state_changed` of `HourlyAveragePowerSensor` (sensor.py lines
275-306).  With no previous timestamp the event only seeds `last_time`.
Otherwise, when the gate allows and the reading is a parsed float, the
negative-clamped power is integrated trapezoidally over the elapsed
seconds and `last_power`/`last_time` advance; on a missing or invalid
reading, or when the gate is closed, only `last_power` is zeroed (the
timestamp is left as it was). -/
def stateChanged (s : IntegratorState) (now : ℚ) (canUpdate : Bool)
    (reading : SourceReading) : IntegratorState :=
  match s.last_time with
  | none => { s with last_time := some now }
  | some lastTime =>
    if canUpdate then
      match reading with
      | SourceReading.value p =>
        let currentPower := clampNegative p
        let deltaSeconds := now - lastTime
        let accumulated :=
          if 0 < deltaSeconds then
            s.accumulated_energy + (s.last_power + currentPower) / 2 * deltaSeconds / 3600000
          else s.accumulated_energy
        { s with accumulated_energy := accumulated,
                 last_power := currentPower,
                 last_time := some now }
      | SourceReading.invalid => { s with last_power := 0 }
      | SourceReading.missing => { s with last_power := 0 }
    else { s with last_power := 0 }

/-- `HourlyAveragePowerSensor.native_value` (sensor.py lines 318-327):
`round(accumulated_energy / elapsed_hours, 3)` when some time has elapsed
since the window start, `0.0` otherwise. -/
def hourlyAverageNativeValue (s : IntegratorState) (now : ℚ) : ℚ :=
  match s.hour_start with
  | none => 0
  | some windowStart =>
    let elapsedHours := (now - windowStart) / 3600
    if 0 < elapsedHours then pyRound (s.accumulated_energy / elapsedHours) 3 else 0

/-- Mathematical trapezoidal integral (in kWh) of the piecewise-linear
power curve through `(startTime, startPower)` followed by the given
`(timestamp, watts)` samples, each sample clamped at zero.  This is the
specification the accumulated energy is compared against. -/
def trapezoidEnergy (startTime startPower : ℚ) : List (ℚ × ℚ) → ℚ
  | [] => 0
  | (t, p) :: rest =>
    (startPower + clampNegative p) / 2 * (t - startTime) / 3600000
      + trapezoidEnergy t (clampNegative p) rest

/-- Feed a list of `(timestamp, watts)` samples to the integrator, gate
open and every reading valid. -/
def feedSamples : IntegratorState → List (ℚ × ℚ) → IntegratorState
  | s, [] => s
  | s, (t, p) :: rest => feedSamples (stateChanged s t true (SourceReading.value p)) rest

/-- Timestamps of a sample list are strictly increasing, starting strictly
after `t`. -/
def timesStrictMono : ℚ → List (ℚ × ℚ) → Bool
  | _, [] => true
  | t, (t1, _) :: rest => decide (t < t1) && timesStrictMono t1 rest

/-- The MaxSnapshot invariant: sorted descending, bounded length,
non-negative entries. -/
def maxSnapshotInvariant (numMaxValues : ℕ) (maxValues : List ℚ) : Prop :=
  List.Sorted (· ≥ ·) maxValues ∧ maxValues.length ≤ numMaxValues ∧ ∀ x ∈ maxValues, 0 ≤ x

/-- Run a sequence of hourly updates, each given by the gate verdict and
the recorder's mean statistic for the closed hour. -/
def runHourlyUpdates (numMaxValues : ℕ) (maxValues : List ℚ)
    (events : List (Bool × Option ℚ)) : List ℚ :=
  events.foldl (fun m e => updateHourlyMax e.1 numMaxValues m e.2) maxValues

/-- The two timer-driven coordinator operations that write `max_values`. -/
inductive CoordinatorOp where
  | hourlyUpdate (canUpdate : Bool) (meanWatts : Option ℚ)
  | monthlyReset (nowDay : ℕ)

/-- Apply one coordinator operation to `max_values`. -/
def applyCoordinatorOp (monthlyReset : Bool) (numMaxValues : ℕ) (maxValues : List ℚ) :
    CoordinatorOp → List ℚ
  | CoordinatorOp.hourlyUpdate g w => updateHourlyMax g numMaxValues maxValues w
  | CoordinatorOp.monthlyReset d => resetMonthlyMaxValues monthlyReset d numMaxValues maxValues

/-- Run a sequence of coordinator operations on `max_values`. -/
def runCoordinatorOps (monthlyReset : Bool) (numMaxValues : ℕ) (maxValues : List ℚ)
    (ops : List CoordinatorOp) : List ℚ :=
  ops.foldl (applyCoordinatorOp monthlyReset numMaxValues) maxValues

/-! ## Helper lemmas -/

theorem sorted_sortedDescending (l : List ℚ) : List.Sorted (· ≥ ·) (sortedDescending l) :=
  List.sorted_insertionSort _ l

theorem mem_sortedDescending {x : ℚ} {l : List ℚ} : x ∈ sortedDescending l ↔ x ∈ l :=
  (List.perm_insertionSort _ l).mem_iff

theorem length_sortedDescending (l : List ℚ) : (sortedDescending l).length = l.length :=
  (List.perm_insertionSort _ l).length_eq

theorem insertMaxValue_invariant (n : ℕ) (m : List ℚ) (v : ℚ)
    (hm : ∀ x ∈ m, 0 ≤ x) (hv : 0 ≤ v) :
    maxSnapshotInvariant n (insertMaxValue n m v) := by
  refine ⟨?_, ?_, ?_⟩
  · exact List.Pairwise.sublist (List.take_sublist _ _) (sorted_sortedDescending _)
  · rw [insertMaxValue, List.length_take]
    exact min_le_left _ _
  · intro x hx
    have hx2 : x ∈ m ++ [v] := mem_sortedDescending.mp (List.take_subset _ _ hx)
    rcases List.mem_append.mp hx2 with h | h
    · exact hm x h
    · rw [List.mem_singleton] at h
      exact h ▸ hv

theorem updateHourlyMax_invariant (g : Bool) (n : ℕ) (m : List ℚ) (w : Option ℚ)
    (hm : maxSnapshotInvariant n m) :
    maxSnapshotInvariant n (updateHourlyMax g n m w) := by
  cases w with
  | none => exact hm
  | some wa =>
    by_cases hw : wa ≥ 0
    · cases g with
      | false => simpa [updateHourlyMax, hw] using hm
      | true =>
        simp only [updateHourlyMax, hw, if_true, if_pos]
        exact insertMaxValue_invariant n m _ hm.2.2 (div_nonneg hw (by norm_num))
    · simpa [updateHourlyMax, hw] using hm

theorem runHourlyUpdates_invariant (events : List (Bool × Option ℚ)) :
    ∀ (n : ℕ) (m : List ℚ), maxSnapshotInvariant n m →
      maxSnapshotInvariant n (runHourlyUpdates n m events) := by
  induction events with
  | nil => intro n m hm; exact hm
  | cons e rest ih =>
    intro n m hm
    exact ih n _ (updateHourlyMax_invariant e.1 n m e.2 hm)

theorem replicate_zero_invariant (n : ℕ) : maxSnapshotInvariant n (List.replicate n (0:ℚ)) :=
  ⟨List.pairwise_replicate.mpr (Or.inr le_rfl), by simp,
    fun x hx => (List.eq_of_mem_replicate hx) ▸ le_rfl⟩

theorem initMaxValues_none (n : ℕ) : initMaxValues none n = List.replicate n 0 := by
  simp [initMaxValues]

theorem initMaxValues_length (stored : Option (List ℚ)) (n : ℕ) :
    (initMaxValues stored n).length = n := by
  unfold initMaxValues
  dsimp only
  split
  · simp
  · next h => exact not_ne_iff.mp h

theorem length_insertMaxValue (n : ℕ) (m : List ℚ) (v : ℚ) :
    (insertMaxValue n m v).length = min n (m.length + 1) := by
  simp [insertMaxValue, List.length_take, length_sortedDescending]

theorem updateHourlyMax_length (g : Bool) (n : ℕ) (m : List ℚ) (w : Option ℚ)
    (h : m.length = n) : (updateHourlyMax g n m w).length = n := by
  cases w with
  | none => exact h
  | some wa =>
    by_cases hw : wa ≥ 0
    · cases g with
      | false => simpa [updateHourlyMax, hw] using h
      | true =>
        simp only [updateHourlyMax, hw, if_true, if_pos]
        rw [length_insertMaxValue, h]
        omega
    · simpa [updateHourlyMax, hw] using h

theorem resetMonthlyMaxValues_length (mr : Bool) (d : ℕ) (n : ℕ) (m : List ℚ)
    (h : m.length = n) : (resetMonthlyMaxValues mr d n m).length = n := by
  rw [resetMonthlyMaxValues]
  split
  · simp
  · exact h

theorem runCoordinatorOps_length (mr : Bool) (n : ℕ) (ops : List CoordinatorOp) :
    ∀ m : List ℚ, m.length = n → (runCoordinatorOps mr n m ops).length = n := by
  induction ops with
  | nil => intro m hm; exact hm
  | cons op rest ih =>
    intro m hm
    cases op with
    | hourlyUpdate g w => exact ih _ (updateHourlyMax_length g n m w hm)
    | monthlyReset d => exact ih _ (resetMonthlyMaxValues_length mr d n m hm)

theorem feedSamples_accumulates (samples : List (ℚ × ℚ)) :
    ∀ (a p t : ℚ) (hs : Option ℚ), timesStrictMono t samples = true →
      ∃ p' t', feedSamples ⟨a, p, some t, hs⟩ samples
        = ⟨a + trapezoidEnergy t p samples, p', some t', hs⟩ := by
  induction samples with
  | nil =>
    intro a p t hs _
    exact ⟨p, t, by simp [feedSamples, trapezoidEnergy]⟩
  | cons hd rest ih =>
    obtain ⟨t1, p1⟩ := hd
    intro a p t hs h
    simp only [timesStrictMono, Bool.and_eq_true, decide_eq_true_eq] at h
    have hdelta : (0:ℚ) < t1 - t := sub_pos.mpr h.1
    have hstep : stateChanged ⟨a, p, some t, hs⟩ t1 true (SourceReading.value p1)
        = ⟨a + (p + clampNegative p1) / 2 * (t1 - t) / 3600000,
           clampNegative p1, some t1, hs⟩ := by
      simp [stateChanged, hdelta]
    obtain ⟨p', t', hrest⟩ :=
      ih (a + (p + clampNegative p1) / 2 * (t1 - t) / 3600000) (clampNegative p1) t1 hs h.2
    refine ⟨p', t', ?_⟩
    rw [show feedSamples ⟨a, p, some t, hs⟩ ((t1, p1) :: rest)
          = feedSamples (stateChanged ⟨a, p, some t, hs⟩ t1 true (SourceReading.value p1)) rest
        from rfl,
      hstep, hrest]
    simp [trapezoidEnergy, add_assoc]

/-! ## Claim theorems -/

/-- C1 (amended): for every strictly time-increasing sequence of valid,
gate-open samples observed in one hour window, the hourly average sensor's
`native_value` equals the trapezoidal-integral energy accumulated since the
window start divided by the elapsed hours, rounded to 3 decimal places by
the component itself. -/
theorem hourly_average_native_value_rounds_trapezoid (t0 now : ℚ) (samples : List (ℚ × ℚ))
    (hmono : timesStrictMono t0 samples = true) (hnow : t0 < now) :
    hourlyAverageNativeValue (feedSamples (hourStartReset t0) samples) now
      = pyRound (trapezoidEnergy t0 0 samples / ((now - t0) / 3600)) 3 := by
  obtain ⟨p', t', hfeed⟩ := feedSamples_accumulates samples 0 0 t0 (some t0) hmono
  rw [zero_add] at hfeed
  have hpos : (0:ℚ) < (now - t0) / 3600 := div_pos (sub_pos.mpr hnow) (by norm_num)
  simp only [hourStartReset]
  rw [hfeed]
  simp [hourlyAverageNativeValue, hpos]

/-- C1 witness: a concrete run through the previous theorem. -/
theorem hourly_average_native_value_rounds_trapezoid_witness :
    hourlyAverageNativeValue (feedSamples (hourStartReset 0) [(1000, 1000)]) 3000
      = pyRound (trapezoidEnergy 0 0 [(1000, 1000)] / ((3000 - 0) / 3600)) 3 :=
  hourly_average_native_value_rounds_trapezoid 0 3000 [(1000, 1000)] (by decide) (by decide)

/-- C1 counterexample: the component does round (to 3 decimals), so its
value is not the full-precision quotient: one sample of 1000 W at t=1000 s
gives exact average 1/6 kW at t=3000 s, but the sensor reports 0.167. -/
theorem hourly_average_native_value_not_full_precision :
    hourlyAverageNativeValue (feedSamples (hourStartReset 0) [(1000, 1000)]) 3000
      ≠ trapezoidEnergy 0 0 [(1000, 1000)] / ((3000 - 0) / 3600) := by
  norm_num [hourlyAverageNativeValue, feedSamples, hourStartReset, stateChanged,
    trapezoidEnergy, clampNegative, pyRound, roundHalfEven]

/-- C2: every sequence of hourly updates applied to the freshly initialized
`max_values` yields a snapshot that is sorted descending, of length at most
`num_max_values`, with all entries non-negative. -/
theorem max_values_sorted_bounded_nonneg (n : ℕ) (events : List (Bool × Option ℚ)) :
    maxSnapshotInvariant n (runHourlyUpdates n (initMaxValues none n) events) := by
  rw [initMaxValues_none]
  exact runHourlyUpdates_invariant events n _ (replicate_zero_invariant n)

/-- C3 counterexample: the hourly update is not idempotent: with N = 2,
starting from `[0, 0]`, a 5000 W mean turns the snapshot into `[5, 0]`, and
a duplicate call with the same boundary turns it into `[5, 5]`. -/
theorem update_hourly_twice_not_idempotent :
    updateHourlyMax true 2 (updateHourlyMax true 2 [0, 0] (some 5000)) (some 5000)
      ≠ updateHourlyMax true 2 [0, 0] (some 5000) := by
  norm_num [updateHourlyMax, insertMaxValue, sortedDescending, List.insertionSort,
    List.orderedInsert]

/-- C3 (amended): there is no boundary-timestamp guard: a duplicate hourly
update with the same non-negative mean performs the same sorted insertion a
second time (and so changes state whenever the re-inserted value still
ranks in the top N). -/
theorem update_hourly_duplicate_reinserts (n : ℕ) (m : List ℚ) (wa : ℚ) (h : wa ≥ 0) :
    updateHourlyMax true n (updateHourlyMax true n m (some wa)) (some wa)
      = insertMaxValue n (insertMaxValue n m (wa / 1000)) (wa / 1000) := by
  simp [updateHourlyMax, h]

/-- C3 witness: the previous theorem at N = 2, `[0, 0]`, 5000 W. -/
theorem update_hourly_duplicate_reinserts_witness :
    updateHourlyMax true 2 (updateHourlyMax true 2 [0, 0] (some 5000)) (some 5000)
      = insertMaxValue 2 (insertMaxValue 2 [0, 0] ((5000 : ℚ) / 1000)) ((5000 : ℚ) / 1000) :=
  update_hourly_duplicate_reinserts 2 [0, 0] 5000 (by decide)

/-- C4 (code bug): the monthly reset overwrites `max_values` with zeros
without retaining the pre-reset snapshot anywhere: two coordinator states
that differ only in their pre-reset `max_values` become identical after the
reset, so no post-reset read (in particular not the
`previous_month_max_values` attribute that sensor.py line 123 expects, and
that `PowerMaxCoordinator` never defines) can return the pre-reset values. -/
theorem monthly_reset_discards_previous_snapshot :
    resetMonthly ⟨"sensor.power", true, 2, none, [9, 8]⟩ 1
      = resetMonthly ⟨"sensor.power", true, 2, none, [3, 1]⟩ 1 ∧
    (resetMonthly ⟨"sensor.power", true, 2, none, [9, 8]⟩ 1).max_values = [0, 0] := by
  constructor <;> simp [resetMonthly, List.replicate]

/-- C5 (amended): when the gate is closed at the time a sample is observed
(and a previous timestamp exists), the handler zeroes the remembered power
and contributes no energy, but it does not advance the last-sample time:
the state is unchanged except for `last_power := 0`. -/
theorem gate_closed_zeroes_power_keeps_time (a p t : ℚ) (hs : Option ℚ) (now : ℚ)
    (reading : SourceReading) :
    stateChanged ⟨a, p, some t, hs⟩ now false reading = ⟨a, 0, some t, hs⟩ := rfl

/-- C5 counterexample: a gate-closed sample at t = 1800 s leaves
`last_time` at its old value 0 instead of advancing it to 1800. -/
theorem gate_closed_does_not_advance_last_time :
    (stateChanged ⟨0, 1000, some 0, some 0⟩ 1800 false (SourceReading.value 500)).last_time
      ≠ some 1800 := by
  norm_num [stateChanged]

/-- C6 (amended): a negative hourly-average reading is skipped outright
(the update is a no-op, gate open or not), rather than being clamped to 0.0
and inserted. -/
theorem negative_mean_skipped (g : Bool) (n : ℕ) (m : List ℚ) (wa : ℚ) (h : wa < 0) :
    updateHourlyMax g n m (some wa) = m := by
  have hw : ¬ (wa ≥ 0) := not_le.mpr h
  simp [updateHourlyMax, hw]

/-- C6 witness: the previous theorem at N = 2, `[0, 0]`, -3 W. -/
theorem negative_mean_skipped_witness :
    updateHourlyMax true 2 [0, 0] (some (-3)) = [0, 0] :=
  negative_mean_skipped true 2 [0, 0] (-3) (by decide)

/-- C6 counterexample: skipping is not the same operation as clamping to
0.0 and inserting: on the snapshot `[5]` with N = 2, the code leaves `[5]`
while clamp-and-insert would produce `[5, 0]`. -/
theorem negative_mean_not_clamped_inserted :
    updateHourlyMax true 2 [5] (some (-3)) ≠ insertMaxValue 2 [5] 0 := by
  norm_num [updateHourlyMax, insertMaxValue, sortedDescending, List.insertionSort,
    List.orderedInsert]

/-- C7 counterexample: reconstructing with `num_max_values = 2` while the
stored snapshot is `[9, 8, 5]` yields `[0, 0]`, not the truncation
`[9, 8]` keeping the largest values. -/
theorem init_discards_stored_snapshot :
    initMaxValues (some [9, 8, 5]) 2 = [0, 0] ∧
    initMaxValues (some [9, 8, 5]) 2 ≠ (sortedDescending [9, 8, 5]).take 2 := by
  constructor
  · norm_num [initMaxValues, List.replicate]
  · norm_num [initMaxValues, sortedDescending, List.insertionSort, List.orderedInsert,
      List.replicate]

/-- C7 (amended): whenever the stored snapshot's length differs from the
(new) configured `num_max_values`, initialization discards it and restarts
from `num_max_values` zeros. -/
theorem init_resets_when_length_differs (stored : List ℚ) (n : ℕ) (h : stored.length ≠ n) :
    initMaxValues (some stored) n = List.replicate n 0 := by
  simp [initMaxValues, h]

/-- C7 witness: the previous theorem at stored `[9, 8, 5]`, new N = 2. -/
theorem init_resets_when_length_differs_witness :
    initMaxValues (some [9, 8, 5]) 2 = List.replicate 2 0 :=
  init_resets_when_length_differs [9, 8, 5] 2 (by decide)

/-- C8 counterexample: on an empty snapshot the average sensor reports the
number 0.0, not an unknown/"no data" state. -/
theorem empty_average_numeric_zero :
    averageMaxNativeValue [] = some 0 ∧ averageMaxNativeValue [] ≠ none := by
  constructor <;> simp [averageMaxNativeValue]

/-- C8 (amended): on a non-empty snapshot the average sensor reports the
arithmetic mean rounded to 2 decimal places; the spec's own example
`[9, 8, 5]` gives 7.33 (the empty case yields the numeric 0.0, see the
counterexample). -/
theorem average_max_native_value_spec :
    (∀ m : List ℚ, m ≠ [] →
        averageMaxNativeValue m = some (pyRound (m.sum / m.length) 2)) ∧
    averageMaxNativeValue [9, 8, 5] = some (733 / 100) := by
  constructor
  · intro m h
    simp [averageMaxNativeValue, h]
  · have hne : ([9, 8, 5] : List ℚ) ≠ [] := by decide
    norm_num [averageMaxNativeValue, hne, pyRound, roundHalfEven]

/-- C8 witness: the universal part of the previous theorem at `[9, 8, 5]`. -/
theorem average_max_native_value_spec_witness :
    averageMaxNativeValue [9, 8, 5]
      = some (pyRound (([9, 8, 5] : List ℚ).sum / ([9, 8, 5] : List ℚ).length) 2) :=
  average_max_native_value_spec.1 [9, 8, 5] (by decide)

/-- C9: both gate predicates (the coordinator's and the sensor base
class's) are open exactly when no gating entity is configured or the
configured entity's state resolves to "on"; a missing, "unavailable",
"unknown" or any other state counts as closed. -/
theorem gate_open_iff (binarySensor binaryState : Option String) :
    (canUpdateMaxValues binarySensor binaryState = true ↔
      binarySensor = none ∨ binaryState = some "on") ∧
    (canUpdateGated binarySensor binaryState = true ↔
      binarySensor = none ∨ binaryState = some "on") := by
  cases binarySensor with
  | none => simp [canUpdateMaxValues, canUpdateGated]
  | some b =>
    cases binaryState with
    | none => simp [canUpdateMaxValues, canUpdateGated]
    | some st =>
      by_cases h : st = "unavailable"
      · subst h
        simp [canUpdateMaxValues, canUpdateGated]
      · simp [canUpdateMaxValues, canUpdateGated, h]

/-- C10: starting from initialization (whatever was persisted) and applying
any sequence of hourly updates and monthly resets, `max_values` always has
exactly `num_max_values` elements, and with `num_max_values ≥ 1` it is
never empty. -/
theorem max_values_length_always_n (monthlyReset : Bool) (stored : Option (List ℚ)) (n : ℕ)
    (ops : List CoordinatorOp) (hn : 1 ≤ n) :
    (runCoordinatorOps monthlyReset n (initMaxValues stored n) ops).length = n ∧
    runCoordinatorOps monthlyReset n (initMaxValues stored n) ops ≠ [] := by
  have hlen := runCoordinatorOps_length monthlyReset n ops (initMaxValues stored n)
    (initMaxValues_length stored n)
  refine ⟨hlen, fun hnil => ?_⟩
  rw [hnil] at hlen
  simp at hlen
  omega

/-- C10 witness: the previous theorem at a concrete configuration. -/
theorem max_values_length_always_n_witness :
    (runCoordinatorOps true 2 (initMaxValues (some [3, 1]) 2)
        [CoordinatorOp.hourlyUpdate true (some 5000), CoordinatorOp.monthlyReset 1]).length = 2 ∧
    runCoordinatorOps true 2 (initMaxValues (some [3, 1]) 2)
        [CoordinatorOp.hourlyUpdate true (some 5000), CoordinatorOp.monthlyReset 1] ≠ [] :=
  max_values_length_always_n true (some [3, 1]) 2
    [CoordinatorOp.hourlyUpdate true (some 5000), CoordinatorOp.monthlyReset 1] (by decide)

end PowerMaxTracker
